import Mathlib

/-!
# Verification of the FossenEnv encounter simulator

Shallow embedding of `tud_rl/envs/FossenEnv.py` (class `FossenEnv`): the
COLREG encounter classifier `_get_COLREG_situation`, the per-tick
classification pass `_set_COLREGs`, the target spawner `_get_TS`
(line mode), the ship-domain radius `_get_ship_domain`, the reward terms
of `_calculate_reward`, and the termination logic of `_done` / `step`.

Conventions of the embedding:

* Angles are represented in **degrees** as rationals.  The source stores
  angles in radians and converts with `rtd` (radians-to-degrees,
  `x * 180 / pi`) exactly at each threshold comparison; since `rtd` is a
  positive linear map, wrapping to `[0, 2*pi)` / `(-pi, pi]` commutes with
  it, so the degree-level functions below are exact images of the
  radian-level source computations.
* The helper module `FossenFnc` (functions `ED`, `angle_to_2pi`,
  `angle_to_pi`, `bng_abs`, `bng_rel`, `head_inter`, `dtr`, `rtd`,
  `tcpa`) and the vessel class `FossenCS2.CyberShipII` are not part of
  the sources; where their values feed the logic under verification they
  are either modelled from the spec (wrapping, Euclidean distance) or
  passed as explicit inputs (trigonometric values, converged speeds), as
  documented at each definition.
* `np.random.uniform(a, b)` is modelled as `a + u * (b - a)` for a draw
  `u ∈ [0, 1)`, and `random.choice([0,1,2,3,4])` as a draw `draw : ℕ`.
-/

/-- Modelled from the spec: `FossenFnc.angle_to_2pi` is not under `src/`.
Spec §3: headings are "normalized to [0, 2π)".  Degree version: wrap an
angle to `[0, 360)`. -/
def angle_to_2pi_deg (a : ℚ) : ℚ := a - 360 * (⌊a / 360⌋ : ℤ)

/-- Modelled from the spec: `FossenFnc.angle_to_pi` is not under `src/`.
Spec §4.2: bearings are "wrapped to (−π, π]".  Degree version: wrap an
angle to `(-180, 180]`. -/
def angle_to_pi_deg (a : ℚ) : ℚ :=
  let b := angle_to_2pi_deg a
  if 180 < b then b - 360 else b

/-- Geometric quantities `_get_COLREG_situation` (FossenEnv.py lines
606-628) derives from the two vessel states before testing the COLREG
thresholds.  Fields record, in degrees:

* `bng_OS` — `rtd` of `bng_rel(N0=NOS, E0=EOS, N1=NTS, E1=ETS, head0=psi_OS)`,
  the bearing of the target relative to the own-ship heading, in `[0, 360)`;
* `bng_TS` — `rtd` of `bng_rel` from the target to the own-ship relative to
  the target heading, in `[0, 360)`;
* `C_T` — `rtd` of `head_inter(head_OS=psi_OS, head_TS=psi_TS)`, the
  heading-intersection angle, in `[0, 360)`;
* `VOS_proj` — `V_OS * cos(C_T_side)`, the own-ship speed projected via the
  course-based (sideslip-adjusted) intersection angle `C_T_side`
  (line 628); the cosine is computed by the external trigonometry, so the
  projected value is carried directly;
* `V_TS` — the target speed `TS._get_V()`;
* `ed` — `ED(N0=NOS, E0=EOS, N1=NTS, E1=ETS)`, the vessel separation
  in metres (line 611). -/
structure EncGeom where
  bng_OS : ℚ
  bng_TS : ℚ
  C_T : ℚ
  VOS_proj : ℚ
  V_TS : ℚ
  ed : ℚ
deriving DecidableEq

/-- FossenEnv.py line 611: the classifier's distance gate `ED(...) > distance`
with `distance = np.inf` by default.  `np.inf` is modelled as `none`
(the comparison `ED > np.inf` is never true). -/
def too_far (ed : ℚ) : Option ℚ → Bool
  | none => false
  | some d => decide (d < ed)

/-- `FossenEnv._get_COLREG_situation` (FossenEnv.py lines 590-652) after the
geometric quantities have been computed: the distance gate and the four
threshold tests, evaluated in source order with early return.
Returns 0 (none), 1 (head-on), 2 (starboard crossing),
3 (portside crossing) or 4 (overtaking). -/
def get_COLREG_situation (g : EncGeom) (distance : Option ℚ) : ℕ :=
  if too_far g.ed distance then 0
  else if -5 ≤ angle_to_pi_deg g.bng_OS ∧ angle_to_pi_deg g.bng_OS ≤ 5
          ∧ 175 ≤ g.C_T ∧ g.C_T ≤ 185 then 1
  else if 5 ≤ g.bng_OS ∧ g.bng_OS ≤ 112.5 ∧ 185 ≤ g.C_T ∧ g.C_T ≤ 292.5 then 2
  else if 247.5 ≤ g.bng_OS ∧ g.bng_OS ≤ 355 ∧ 67.5 ≤ g.C_T ∧ g.C_T ≤ 175 then 3
  else if 112.5 ≤ g.bng_TS ∧ g.bng_TS ≤ 247.5
          ∧ -67.5 ≤ angle_to_pi_deg g.C_T ∧ angle_to_pi_deg g.C_T ≤ 67.5
          ∧ g.V_TS < g.VOS_proj then 4
  else 0

/-- `FossenEnv._set_COLREGs` (FossenEnv.py lines 291-301): the per-tick
pass classifies every target with `_get_COLREG_situation(OS=self.OS, TS=TS)`,
i.e. with the default `distance=np.inf`. -/
def set_COLREGs (gs : List EncGeom) : List ℕ :=
  gs.map (fun g => get_COLREG_situation g none)

/-- Spec §4.2 HeadOn: "`bng_OS` within ±5° of 0°, AND `C_T` within
[175°, 185°]", with `bng_OS` wrapped to `(−π, π]`. -/
def specHeadOn (g : EncGeom) : Prop :=
  (-5 ≤ angle_to_pi_deg g.bng_OS ∧ angle_to_pi_deg g.bng_OS ≤ 5) ∧
  (175 ≤ g.C_T ∧ g.C_T ≤ 185)

/-- Spec §4.2 StarboardCrossing: "`bng_OS` in [5°, 112.5°], AND `C_T` in
[185°, 292.5°]", with `bng_OS` in `[0, 2π)`. -/
def specStarboard (g : EncGeom) : Prop :=
  (5 ≤ g.bng_OS ∧ g.bng_OS ≤ 112.5) ∧ (185 ≤ g.C_T ∧ g.C_T ≤ 292.5)

/-- Spec §4.2 PortsideCrossing: "`bng_OS` in [247.5°, 355°], AND `C_T` in
[67.5°, 175°]". -/
def specPortside (g : EncGeom) : Prop :=
  (247.5 ≤ g.bng_OS ∧ g.bng_OS ≤ 355) ∧ (67.5 ≤ g.C_T ∧ g.C_T ≤ 175)

/-- Spec §4.2 Overtaking, angular part: "`bng_TS` in [112.5°, 247.5°],
AND `C_T` (wrapped to (−180°,180°]) in [−67.5°, 67.5°]". -/
def angOvertaking (g : EncGeom) : Prop :=
  (112.5 ≤ g.bng_TS ∧ g.bng_TS ≤ 247.5) ∧
  (-67.5 ≤ angle_to_pi_deg g.C_T ∧ angle_to_pi_deg g.C_T ≤ 67.5)

/-- Spec §4.2 Overtaking: the angular part plus "own-ship's speed component
projected onto the course-adjusted relative direction strictly exceeds the
target's speed". -/
def specOvertaking (g : EncGeom) : Prop :=
  angOvertaking g ∧ g.V_TS < g.VOS_proj

instance (g : EncGeom) : Decidable (specHeadOn g) := by
  unfold specHeadOn; infer_instance

instance (g : EncGeom) : Decidable (specStarboard g) := by
  unfold specStarboard; infer_instance

instance (g : EncGeom) : Decidable (specPortside g) := by
  unfold specPortside; infer_instance

instance (g : EncGeom) : Decidable (angOvertaking g) := by
  unfold angOvertaking; infer_instance

instance (g : EncGeom) : Decidable (specOvertaking g) := by
  unfold specOvertaking; infer_instance

lemma angle_to_2pi_deg_eq_self {a : ℚ} (h0 : 0 ≤ a) (h1 : a < 360) :
    angle_to_2pi_deg a = a := by
  unfold angle_to_2pi_deg
  have : ⌊a / 360⌋ = 0 := by
    rw [Int.floor_eq_zero_iff]
    constructor
    · positivity
    · rw [div_lt_one (by norm_num)]; exact h1
  rw [this]
  push_cast
  ring

lemma angle_to_pi_deg_of_le {a : ℚ} (h0 : 0 ≤ a) (h1 : a ≤ 180) :
    angle_to_pi_deg a = a := by
  unfold angle_to_pi_deg
  rw [angle_to_2pi_deg_eq_self h0 (by linarith)]
  simp only [if_neg (by linarith : ¬ (180:ℚ) < a)]

lemma angle_to_pi_deg_of_gt {a : ℚ} (h0 : 180 < a) (h1 : a < 360) :
    angle_to_pi_deg a = a - 360 := by
  unfold angle_to_pi_deg
  rw [angle_to_2pi_deg_eq_self (by linarith) h1]
  simp only [if_pos h0]

/-- **C1.** For every encounter geometry, `_get_COLREG_situation` (with the
default `distance = np.inf`) returns the encounter class obtained by testing
the spec's four predicates — HeadOn, StarboardCrossing, PortsideCrossing,
Overtaking, with exactly the stated thresholds — in that priority order,
first match winning, and `None` (0) when no predicate matches. -/
theorem colreg_classifier_matches_spec_priority (g : EncGeom) :
    get_COLREG_situation g none =
      if specHeadOn g then 1
      else if specStarboard g then 2
      else if specPortside g then 3
      else if specOvertaking g then 4
      else 0 := by
  simp only [get_COLREG_situation, too_far, Bool.false_eq_true, if_false,
    specHeadOn, specStarboard, specPortside, specOvertaking, angOvertaking, and_assoc]

/-- **C2, counterexample.** The claim says no input satisfies the angular
conditions of two distinct classes, including at the boundary values.  At
`bng_OS = 5°`, `C_T = 185°` the HeadOn and StarboardCrossing angular
conditions hold simultaneously (the boundary value ties are broken only by
the priority order, not by disjointness of the conditions). -/
theorem colreg_angular_conditions_overlap_at_boundary :
    specHeadOn ⟨5, 0, 185, 0, 0, 0⟩ ∧ specStarboard ⟨5, 0, 185, 0, 0, 0⟩ ∧
    get_COLREG_situation ⟨5, 0, 185, 0, 0, 0⟩ none = 1 := by
  refine ⟨?_, ?_, ?_⟩ <;>
    norm_num [specHeadOn, specStarboard, get_COLREG_situation, too_far,
      angle_to_pi_deg, angle_to_2pi_deg]

/-- **C2, amended.** Away from the four shared boundary values of the
heading-intersection angle — `C_T ∉ {67.5°, 175°, 185°, 292.5°}` — the four
angular conditions are pairwise mutually exclusive; at those boundary values
two conditions can hold at once and the classifier's priority order assigns
the first matching branch. -/
theorem colreg_angular_conditions_disjoint_off_boundary (g : EncGeom)
    (h1 : g.C_T ≠ 67.5) (h2 : g.C_T ≠ 175) (h3 : g.C_T ≠ 185) (h4 : g.C_T ≠ 292.5) :
    ¬(specHeadOn g ∧ specStarboard g) ∧
    ¬(specHeadOn g ∧ specPortside g) ∧
    ¬(specHeadOn g ∧ angOvertaking g) ∧
    ¬(specStarboard g ∧ specPortside g) ∧
    ¬(specStarboard g ∧ angOvertaking g) ∧
    ¬(specPortside g ∧ angOvertaking g) := by
  unfold specHeadOn specStarboard specPortside angOvertaking
  refine ⟨?_, ?_, ?_, ?_, ?_, ?_⟩
  · rintro ⟨⟨-, -, hle⟩, -, hge, -⟩
    exact h3 (le_antisymm hle hge)
  · rintro ⟨⟨-, hge, -⟩, -, -, hle⟩
    exact h2 (le_antisymm hle hge)
  · rintro ⟨⟨-, hge, hle⟩, -, hw1, hw2⟩
    rcases le_or_lt g.C_T 180 with hc | hc
    · rw [angle_to_pi_deg_of_le (by linarith) hc] at hw2
      linarith
    · rw [angle_to_pi_deg_of_gt hc (by linarith)] at hw1
      linarith
  · rintro ⟨⟨⟨-, hle⟩, -⟩, ⟨hge, -⟩, -⟩
    linarith
  · rintro ⟨⟨-, hge, hle⟩, -, hw1, -⟩
    have hlt : g.C_T < 292.5 := lt_of_le_of_ne hle h4
    rw [angle_to_pi_deg_of_gt (by linarith) (by linarith)] at hw1
    linarith
  · rintro ⟨⟨-, hge, hle⟩, -, -, hw2⟩
    have hgt : 67.5 < g.C_T := lt_of_le_of_ne hge (Ne.symm h1)
    rw [angle_to_pi_deg_of_le (by linarith) (by linarith)] at hw2
    linarith

/-- Modelled from the spec: `FossenFnc.ED` is not under `src/`.  Euclidean
distance `ED(own, target)` (glossary / §4.4); the source function takes a
`sqrt` flag and returns the squared distance when it is false (used for
`r_coll`, FossenEnv.py line 510). -/
noncomputable def ED (N0 E0 N1 E1 : ℝ) (sqrt : Bool) : ℝ :=
  if sqrt then Real.sqrt ((N0 - N1) ^ 2 + (E0 - E1) ^ 2)
  else (N0 - N1) ^ 2 + (E0 - E1) ^ 2

/-- The relative speed `VR` computed by `_get_ship_domain`
(FossenEnv.py lines 578-583): the magnitude of the difference of the two
velocity vectors resolved into the world frame via the course angles. -/
noncomputable def rel_speed (VOS chiOS VTS chiTS : ℝ) : ℝ :=
  Real.sqrt ((VTS * Real.cos chiTS - VOS * Real.cos chiOS) ^ 2 +
             (VTS * Real.sin chiTS - VOS * Real.sin chiOS) ^ 2)

/-- `FossenEnv._get_ship_domain` (FossenEnv.py lines 564-587): the Zhao-Roh
ship domain radius `OS.length * V**1.26 + 30 * V` with
`V = max(VOS, VR)`. -/
noncomputable def get_ship_domain (length VOS chiOS VTS chiTS : ℝ) : ℝ :=
  let V := max VOS (rel_speed VOS chiOS VTS chiTS)
  length * V ^ (1.26 : ℝ) + 30 * V

/-- **C3, counterexample.** In the per-tick `_set_COLREGs` pass a target far
beyond the ship-domain radius is *not* classified as `None`: two vessels at
rest (ship domain `= 0` for any hull length, here `1`) separated by `100 m`
in head-on geometry are classified `1` (head-on), because `_set_COLREGs`
calls `_get_COLREG_situation` without a `distance` argument
(FossenEnv.py line 301), so the gate uses `np.inf`, not the ship domain. -/
theorem set_COLREGs_ignores_ship_domain :
    set_COLREGs [⟨0, 0, 180, 0, 0, 100⟩] = [1] ∧
    get_ship_domain 1 0 0 0 0 < 100 := by
  constructor
  · norm_num [set_COLREGs, get_COLREG_situation, too_far, angle_to_pi_deg,
      angle_to_2pi_deg]
  · have hr : rel_speed 0 0 0 0 = 0 := by
      norm_num [rel_speed, Real.sqrt_zero]
    rw [get_ship_domain, hr]
    norm_num [Real.zero_rpow]

/-- **C3, amended.** The per-tick `_set_COLREGs` pass applies no distance
cutoff at all: it classifies every target with `distance = np.inf`, so the
result is independent of the pair's separation `ed` (in particular a target
beyond the ship-domain radius is still classified by its angles); the
distance gate only zeroes the result for callers that pass an explicit
finite cutoff (the rendering query passes `distance=10000`,
FossenEnv.py line 791). -/
theorem set_COLREGs_distance_gate_behavior :
    (∀ gs : List EncGeom, set_COLREGs gs = gs.map (fun g => get_COLREG_situation g none)) ∧
    (∀ (g : EncGeom) (e : ℚ),
      get_COLREG_situation { g with ed := e } none = get_COLREG_situation g none) ∧
    (∀ (g : EncGeom) (d : ℚ), d < g.ed → get_COLREG_situation g (some d) = 0) := by
  refine ⟨fun gs => rfl, fun g e => rfl, fun g d h => ?_⟩
  simp [get_COLREG_situation, too_far, h]

/-- Witness for `set_COLREGs_distance_gate_behavior`: the rendering-style
call with cutoff `1 m` on a pair separated by `100 m` returns `None`. -/
theorem set_COLREGs_distance_gate_behavior_inst :
    get_COLREG_situation ⟨0, 0, 180, 0, 0, 100⟩ (some 1) = 0 :=
  set_COLREGs_distance_gate_behavior.2.2 ⟨0, 0, 180, 0, 0, 100⟩ 1 (by norm_num)

/-- **C8.** `_get_ship_domain` returns
`length * max(VOS, VR)^1.26 + 30 * max(VOS, VR)` with `VR` the magnitude of
the world-frame velocity difference, and (for non-negative hull length) the
returned radius is monotonically non-decreasing in `max(VOS, VR)`. -/
theorem ship_domain_formula_monotone :
    (∀ length VOS chiOS VTS chiTS : ℝ,
      get_ship_domain length VOS chiOS VTS chiTS =
        length * (max VOS (rel_speed VOS chiOS VTS chiTS)) ^ (1.26 : ℝ) +
          30 * max VOS (rel_speed VOS chiOS VTS chiTS)) ∧
    (∀ length V1 c1 W1 d1 V2 c2 W2 d2 : ℝ, 0 ≤ length →
      max V1 (rel_speed V1 c1 W1 d1) ≤ max V2 (rel_speed V2 c2 W2 d2) →
      get_ship_domain length V1 c1 W1 d1 ≤ get_ship_domain length V2 c2 W2 d2) := by
  constructor
  · intro length VOS chiOS VTS chiTS
    rfl
  · intro length V1 c1 W1 d1 V2 c2 W2 d2 hlen hV
    have h1 : (0:ℝ) ≤ max V1 (rel_speed V1 c1 W1 d1) :=
      le_trans (Real.sqrt_nonneg _) (le_max_right _ _)
    have hpow : max V1 (rel_speed V1 c1 W1 d1) ^ (1.26 : ℝ) ≤
        max V2 (rel_speed V2 c2 W2 d2) ^ (1.26 : ℝ) :=
      Real.rpow_le_rpow h1 hV (by norm_num)
    show length * _ ^ (1.26 : ℝ) + 30 * _ ≤ length * _ ^ (1.26 : ℝ) + 30 * _
    have := mul_le_mul_of_nonneg_left hpow hlen
    linarith

/-- Witness for `ship_domain_formula_monotone`: the domain of a resting pair
is at most the domain of a pair with own-ship speed 1 (both with unit hull
length and zero courses). -/
theorem ship_domain_formula_monotone_inst :
    get_ship_domain 1 0 0 0 0 ≤ get_ship_domain 1 1 0 1 0 :=
  ship_domain_formula_monotone.2 1 0 0 0 0 1 0 1 0 (by norm_num) (by
    have h1 : rel_speed 0 0 0 0 = 0 := by norm_num [rel_speed, Real.sqrt_zero]
    have h2 : rel_speed 1 0 1 0 = 0 := by norm_num [rel_speed, Real.sqrt_zero]
    rw [h1, h2]
    norm_num)

/-- FossenEnv.py line 31: `goal_reach_dist = 25`. -/
noncomputable def goal_reach_dist : ℝ := 25

/-- FossenEnv.py line 45: `_max_episode_steps = 1e3`; the comparison
`step_cnt >= 1e3` on the integer step counter is the comparison with
1000. -/
def max_episode_steps : ℕ := 1000

/-- The state read by `_done` (FossenEnv.py lines 549-561): own-ship
position (after this tick's dynamics update and clipping), the episode's
goal, and the step counter. -/
structure DoneState where
  N : ℝ
  E : ℝ
  goalN : ℝ
  goalE : ℝ
  step_cnt : ℕ

/-- `FossenEnv._done` (FossenEnv.py lines 549-561): returns true when the
goal is reached (`ED(own, goal) <= goal_reach_dist`) or the step counter has
reached `_max_episode_steps`; the source's two early returns followed by
`return False` denote exactly this disjunction. -/
def env_done (s : DoneState) : Prop :=
  ED s.N s.E s.goalN s.goalE true ≤ goal_reach_dist ∨
  max_episode_steps ≤ s.step_cnt

/-- Result of one `step` call: the returned `done` flag and the post-step
internal state. -/
structure StepRes where
  done : Prop
  post : DoneState

/-- The termination-relevant skeleton of `FossenEnv.step`
(FossenEnv.py lines 395-431): the own-ship dynamics update and clipping
produce the new position `(N1, E1)` (the kinematics integrator is the
external collaborator, so the new position is an input here); `_done` is
evaluated on that updated position with the *current* step counter
(line 425), and only afterwards is the counter incremented (line 428). -/
def step_env (s : DoneState) (N1 E1 : ℝ) : StepRes :=
  let s1 : DoneState := { s with N := N1, E := E1 }
  { done := env_done s1,
    post := { s1 with step_cnt := s1.step_cnt + 1 } }

/-- **C5.** `step` returns `done = True` iff, after that tick's dynamics
update, the own-ship-to-goal distance is at most `goal_reach_dist` or the
step counter (counting previously completed steps: it is incremented only
after `_done` is evaluated) has reached the maximum number of episode
steps.  In particular `done = True` is returned at the first tick the goal
condition holds. -/
theorem step_done_iff_goal_or_max_steps (s : DoneState) (N1 E1 : ℝ) :
    ((step_env s N1 E1).done ↔
      (ED N1 E1 s.goalN s.goalE true ≤ goal_reach_dist ∨
        max_episode_steps ≤ s.step_cnt)) ∧
    (step_env s N1 E1).post.step_cnt = s.step_cnt + 1 :=
  ⟨Iff.rfl, rfl⟩

/-- FossenEnv.py line 26: `safety_dist = 7.5`. -/
noncomputable def safety_dist : ℝ := 7.5

/-- FossenEnv.py line 51: `r_coll_sigma = 5`. -/
noncomputable def r_coll_sigma : ℝ := 5

/-- The explicit collision penalty of `_calculate_reward`
(FossenEnv.py line 516): `10 if EDsq_TS < self.safety_dist**2 else 0`
(this value is subtracted from `r_coll`). -/
noncomputable def coll_penalty (EDsq : ℝ) : ℝ :=
  if EDsq < safety_dist ^ 2 then 10 else 0

/-- The collision reward of `_calculate_reward` (FossenEnv.py lines
505-516): starting from 0, for every target subtract the Gaussian proximity
term `exp(-0.5 * EDsq_TS / r_coll_sigma**2)` and the explicit collision
penalty, where `EDsq_TS = ED(..., sqrt=False)` is the squared own-ship /
target distance.  Targets are given by their `(N, E)` positions. -/
noncomputable def r_coll (N0 E0 : ℝ) (TSs : List (ℝ × ℝ)) : ℝ :=
  (TSs.map (fun TS =>
    -Real.exp (-0.5 * ED N0 E0 TS.1 TS.2 false / r_coll_sigma ^ 2)
      - coll_penalty (ED N0 E0 TS.1 TS.2 false))).sum

lemma list_sum_nonpos {l : List ℝ} (h : ∀ x ∈ l, x ≤ 0) : l.sum ≤ 0 := by
  induction l with
  | nil => simp
  | cons a t ih =>
    rw [List.sum_cons]
    have ha : a ≤ 0 := h a (List.mem_cons_self a t)
    have ht : t.sum ≤ 0 := ih (fun x hx => h x (List.mem_cons_of_mem a hx))
    linarith

/-- **C6.** `r_coll` is the sum over targets of the negated Gaussian
proximity term minus an additional 10 exactly when the squared distance is
strictly below `safety_dist**2`; a target exactly at
`EDsq = safety_dist**2` incurs no hard penalty; and `r_coll ≤ 0` always. -/
theorem r_coll_sum_and_boundary :
    (∀ (N0 E0 : ℝ) (TSs : List (ℝ × ℝ)),
      r_coll N0 E0 TSs =
        (TSs.map (fun TS =>
          -Real.exp (-0.5 * ED N0 E0 TS.1 TS.2 false / r_coll_sigma ^ 2)
            - coll_penalty (ED N0 E0 TS.1 TS.2 false))).sum) ∧
    (∀ EDsq : ℝ, coll_penalty EDsq = 10 ↔ EDsq < safety_dist ^ 2) ∧
    coll_penalty (safety_dist ^ 2) = 0 ∧
    (∀ (N0 E0 : ℝ) (TSs : List (ℝ × ℝ)), r_coll N0 E0 TSs ≤ 0) := by
  refine ⟨fun N0 E0 TSs => rfl, ?_, ?_, ?_⟩
  · intro EDsq
    unfold coll_penalty
    split_ifs with h
    · exact iff_of_true rfl h
    · exact iff_of_false (by norm_num) h
  · unfold coll_penalty
    rw [if_neg (lt_irrefl _)]
  · intro N0 E0 TSs
    apply list_sum_nonpos
    intro x hx
    rw [List.mem_map] at hx
    obtain ⟨TS, -, rfl⟩ := hx
    have hexp : 0 < Real.exp (-0.5 * ED N0 E0 TS.1 TS.2 false / r_coll_sigma ^ 2) :=
      Real.exp_pos _
    have hpen : 0 ≤ coll_penalty (ED N0 E0 TS.1 TS.2 false) := by
      unfold coll_penalty
      split_ifs <;> norm_num
    linarith

/-- Per-target inputs of the COLREG-compliance reward loop of
`_calculate_reward` (FossenEnv.py lines 519-534):

* `respawn` — `self.respawn_flags[TS_idx]`;
* `sigma_old` — `self.TS_COLREGs_old[TS_idx]`, last tick's situation code;
* `sigma_new` — `self.TS_COLREGs[TS_idx]`, this tick's situation code;
* `bng` — degrees of `bng_rel(N0, E0, TS.eta[0], TS.eta[1], head0)`, the
  target's current bearing relative to the own-ship heading, in
  `[0, 360)`. -/
structure RuleInput where
  respawn : Bool
  sigma_old : ℕ
  sigma_new : ℕ
  bng : ℚ
deriving DecidableEq

/-- One target's contribution to `r_COLREG` (FossenEnv.py lines 522-534),
mirroring the source's nested conditions: skip just-respawned targets;
assess only when the situation changed; only when the old situation was
head-on, starboard or portside crossing; penalize by 10 when the bearing is
in `[0°, 180°]` (source: `0 <= bng_rel(...) <= np.pi`). -/
def r_COLREG_term (t : RuleInput) : ℚ :=
  if t.respawn = false then
    if t.sigma_new ≠ t.sigma_old then
      if t.sigma_old = 1 ∨ t.sigma_old = 2 ∨ t.sigma_old = 3 then
        if 0 ≤ t.bng ∧ t.bng ≤ 180 then -10 else 0
      else 0
    else 0
  else 0

/-- The COLREG-compliance reward `r_COLREG` of `_calculate_reward`
(FossenEnv.py lines 519-534): the cumulative penalty over all targets. -/
def r_COLREG (ts : List RuleInput) : ℚ := (ts.map r_COLREG_term).sum

/-- The claim's contribution predicate, literally: the target is not
flagged just-respawned, its situation *left the set*
{HeadOn, StarboardCrossing, PortsideCrossing} this tick (old in the set,
new not in the set), and its bearing is in `[0°, 180°]`. -/
def left_stand_set (t : RuleInput) : Prop :=
  t.respawn = false ∧
  (t.sigma_old = 1 ∨ t.sigma_old = 2 ∨ t.sigma_old = 3) ∧
  ¬(t.sigma_new = 1 ∨ t.sigma_new = 2 ∨ t.sigma_new = 3) ∧
  0 ≤ t.bng ∧ t.bng ≤ 180

/-- The source's actual contribution predicate: old situation in
{1, 2, 3} and the situation *changed* (the new situation may still be in
the set). -/
def changed_from_stand (t : RuleInput) : Prop :=
  t.respawn = false ∧
  (t.sigma_old = 1 ∨ t.sigma_old = 2 ∨ t.sigma_old = 3) ∧
  t.sigma_new ≠ t.sigma_old ∧
  0 ≤ t.bng ∧ t.bng ≤ 180

instance (t : RuleInput) : Decidable (left_stand_set t) := by
  unfold left_stand_set; infer_instance

instance (t : RuleInput) : Decidable (changed_from_stand t) := by
  unfold changed_from_stand; infer_instance

lemma r_COLREG_term_eq (t : RuleInput) :
    r_COLREG_term t = if changed_from_stand t then (-10 : ℚ) else 0 := by
  unfold r_COLREG_term changed_from_stand
  split_ifs <;> tauto

/-- **C7, counterexample.** A target whose situation changes from head-on
(1) to starboard crossing (2) — staying inside the set
{HeadOn, StarboardCrossing, PortsideCrossing} — while bearing 90° and not
respawned is penalized by 10 in the source, although the claim's predicate
("transitioned away from the set") excludes it: the claim's "exactly those
targets ... no other target contributes" is false. -/
theorem r_COLREG_penalizes_within_set_transition :
    r_COLREG [⟨false, 1, 2, 90⟩] = -10 ∧ ¬ left_stand_set ⟨false, 1, 2, 90⟩ := by
  constructor
  · norm_num [r_COLREG, r_COLREG_term]
  · intro h
    exact h.2.2.1 (Or.inr (Or.inl rfl))

/-- **C7, amended.** `r_COLREG` applies the −10 penalty (cumulative across
targets) exactly to the targets that are not flagged just-respawned, whose
situation *changed* this tick from an old value in
{HeadOn, StarboardCrossing, PortsideCrossing} (the new value may itself
still lie in that set), and whose relative bearing lies in `[0°, 180°]`;
no other target contributes. -/
theorem r_COLREG_exact_characterization (ts : List RuleInput) :
    r_COLREG ts =
      (ts.map (fun t => if changed_from_stand t then (-10 : ℚ) else 0)).sum := by
  unfold r_COLREG
  rw [show r_COLREG_term = (fun t => if changed_from_stand t then (-10 : ℚ) else 0)
    from funext r_COLREG_term_eq]

/-- FossenEnv.py line 27: `TCPA_crit = 60`. -/
def TCPA_crit : ℚ := 60

/-- FossenEnv.py lines 141-142 inside `_get_TS`:
`COLREG_s = random.choice([0, 1, 2, 3, 4])` immediately followed by
`COLREG_s = 2`.  The random draw is the argument; the rebinding overwrites
it. -/
def sample_COLREG_s (draw : ℕ) : ℕ :=
  let COLREG_s := draw
  let COLREG_s := 2
  COLREG_s

/-- The line-mode intersection-angle sampling of `_get_TS`
(FossenEnv.py lines 255-271): `np.random.uniform(a, b)` is modelled as
`a + uC * (b - a)` for a draw `uC ∈ [0, 1)`.  The final branch (overtaking,
`COLREG_s = 4`) does not exist in line mode — the source would fall through
with `C_TS_s` unbound — and is unreachable because `COLREG_s` is always 2;
it is mapped to 0 here. -/
def line_C_TS_s (COLREG_s : ℕ) (uC : ℚ) : ℚ :=
  if COLREG_s = 1 then 175 + uC * (185 - 175)
  else if COLREG_s = 2 then 185 + uC * (292.5 - 185)
  else if COLREG_s = 3 then 67.5 + uC * (175 - 67.5)
  else 0

/-- FossenEnv.py lines 234-242: the own-ship velocity components
`(vxOS, vyOS) = (VOS*sin(chiOS), VOS*cos(chiOS))` projected onto the unit
direction toward the goal `(gx, gy) = (sin(bng_abs_goal), cos(bng_abs_goal))`
(the trigonometric values are computed by the external `FossenFnc`
helpers, so the world-frame components are carried directly). -/
def vR_line (vxOS vyOS gx gy : ℚ) : ℚ := vxOS * gx + vyOS * gy

/-- FossenEnv.py lines 244-251: `E_hit = E0 + np.abs(vR*sin(bng_abs_goal)) * t_hit`. -/
def hit_E (E0 vxOS vyOS gx gy t_hit : ℚ) : ℚ :=
  E0 + |vR_line vxOS vyOS gx gy * gx| * t_hit

/-- FossenEnv.py lines 245-252: `N_hit = N0 + np.abs(vR*cos(bng_abs_goal)) * t_hit`. -/
def hit_N (N0 vxOS vyOS gx gy t_hit : ℚ) : ℚ :=
  N0 + |vR_line vxOS vyOS gx gy * gy| * t_hit

/-- The target-vessel state relevant to `_get_TS`: position, heading
(degrees), longitudinal speed `nu[0]` and commanded thrust `tau_u`. -/
structure TSState where
  N : ℚ
  E : ℚ
  psi : ℚ
  u : ℚ
  tau_u : ℚ
deriving DecidableEq

/-- `FossenEnv._get_TS` with the default `spawn_mode="line"`
(FossenEnv.py lines 96-287, line-mode path).  Inputs:

* `TS` — the freshly constructed `CyberShipII` with uniformly random
  position, heading and thrust (lines 116-126);
* `u_conv` — `TS._u_from_tau_u(TS.tau_u)`, the converged speed computed by
  the external vessel model (line 138);
* `draw` — the `random.choice([0,1,2,3,4])` draw (line 141);
* `N0, E0` — the own-ship position; `vxOS, vyOS` — its world-frame velocity
  components; `gx, gy` — sine and cosine of `bng_abs_goal`, the absolute
  bearing toward the goal; `bng_goal` — that bearing in degrees;
* `t_u, uC` — the `uniform` draws for `t_hit ∈ [TCPA_crit/2, TCPA_crit]`
  (line 248) and for the intersection angle;
* `sinHT, cosHT` — sine and cosine of the resulting target heading
  `head_TS_s`, used to back-trace the spawn position (lines 281-282). -/
def get_TS_line (cnt_approach : String) (TS : TSState) (u_conv : ℚ) (draw : ℕ)
    (N0 E0 vxOS vyOS gx gy bng_goal t_u uC sinHT cosHT : ℚ) : TSState :=
  if cnt_approach ≠ "tau" then TS
  else
    let TS1 : TSState := { TS with u := u_conv }
    let COLREG_s := sample_COLREG_s draw
    if COLREG_s = 0 then TS1
    else
      let t_hit := TCPA_crit / 2 + t_u * (TCPA_crit - TCPA_crit / 2)
      let E_hit := hit_E E0 vxOS vyOS gx gy t_hit
      let N_hit := hit_N N0 vxOS vyOS gx gy t_hit
      let C_TS_s := line_C_TS_s COLREG_s uC
      let head_TS_s := angle_to_2pi_deg (C_TS_s + bng_goal)
      let VTS := TS1.u
      { N := N_hit - VTS * cosHT * t_hit,
        E := E_hit - VTS * sinHT * t_hit,
        psi := head_TS_s,
        u := TS1.u,
        tau_u := TS1.tau_u }

/-- **C4.** The encounter situation sampled by `random.choice` in the
"tau" configuration is immediately overwritten with the constant 2
(StarboardCrossing): the effective scenario is 2 for every draw, the spawn
result does not depend on the draw at all, and the line-mode intersection
angle is always sampled from the starboard band `[185°, 292.5°]` — the
null, head-on, portside and overtaking spawn branches are unreachable. -/
theorem get_TS_tau_always_starboard :
    (∀ draw : ℕ, sample_COLREG_s draw = 2) ∧
    (∀ (draw draw' : ℕ) (TS : TSState)
       (u_conv N0 E0 vxOS vyOS gx gy bng_goal t_u uC sinHT cosHT : ℚ),
      get_TS_line "tau" TS u_conv draw N0 E0 vxOS vyOS gx gy bng_goal t_u uC sinHT cosHT =
      get_TS_line "tau" TS u_conv draw' N0 E0 vxOS vyOS gx gy bng_goal t_u uC sinHT cosHT) ∧
    (∀ (draw : ℕ) (uC : ℚ), 0 ≤ uC → uC ≤ 1 →
      185 ≤ line_C_TS_s (sample_COLREG_s draw) uC ∧
      line_C_TS_s (sample_COLREG_s draw) uC ≤ 292.5) := by
  refine ⟨fun _ => rfl, fun _ _ _ _ _ _ _ _ _ _ _ _ _ _ _ => rfl, ?_⟩
  intro draw uC h0 h1
  show 185 ≤ line_C_TS_s 2 uC ∧ line_C_TS_s 2 uC ≤ 292.5
  unfold line_C_TS_s
  norm_num
  constructor <;> nlinarith

/-- Witness for `get_TS_tau_always_starboard` at draw 3 and `uC = 1/2`. -/
theorem get_TS_tau_always_starboard_inst :
    sample_COLREG_s 0 = 2 ∧
    185 ≤ line_C_TS_s (sample_COLREG_s 3) (1/2) ∧
    line_C_TS_s (sample_COLREG_s 3) (1/2) ≤ 292.5 :=
  ⟨get_TS_tau_always_starboard.1 0,
   (get_TS_tau_always_starboard.2.2 3 (1/2) (by norm_num) (by norm_num)).1,
   (get_TS_tau_always_starboard.2.2 3 (1/2) (by norm_num) (by norm_num)).2⟩

/-- **C10.** If the control approach is not `"tau"`, `_get_TS` returns the
freshly constructed random target unchanged: no speed convergence, no
scenario sampling, no rendezvous solving. -/
theorem get_TS_non_tau_early_return
    (cnt_approach : String) (h : cnt_approach ≠ "tau")
    (TS : TSState) (u_conv : ℚ) (draw : ℕ)
    (N0 E0 vxOS vyOS gx gy bng_goal t_u uC sinHT cosHT : ℚ) :
    get_TS_line cnt_approach TS u_conv draw N0 E0 vxOS vyOS gx gy bng_goal t_u uC sinHT cosHT
      = TS := by
  unfold get_TS_line
  rw [if_pos h]

/-- Witness for `get_TS_non_tau_early_return` with the `"rps_angle"`
configuration: the spawned target keeps its raw random state. -/
theorem get_TS_non_tau_early_return_inst :
    get_TS_line "rps_angle" ⟨1, 2, 3, 0, 4⟩ 9 4 0 0 0 0 0 0 0 0 0 0 0 = ⟨1, 2, 3, 0, 4⟩ :=
  get_TS_non_tau_early_return "rps_angle" (by decide) ⟨1, 2, 3, 0, 4⟩ 9 4 0 0 0 0 0 0 0 0 0 0 0

/-- **C9, counterexample.** The line-mode rendezvous point does *not* lie on
the ray from the own-ship toward the goal for every pose: with the goal due
south of the own-ship (`(gx, gy) = (0, -1)`, a unit direction) and the
own-ship moving due north (`(vxOS, vyOS) = (0, 1)`), at the in-range sample
`t_hit = 30 ∈ [TCPA_crit/2, TCPA_crit]` the hit point lies 30 m *north* of
the own-ship — the absolute values in
`E_hit = E0 + |vR*gx|*t_hit, N_hit = N0 + |vR*gy|*t_hit` discard the sign
of the closing speed, so no point of the goal ray equals it. -/
theorem line_hit_point_off_ray :
    (0:ℚ) ^ 2 + (-1:ℚ) ^ 2 = 1 ∧
    TCPA_crit / 2 ≤ 30 ∧ (30:ℚ) ≤ TCPA_crit ∧
    ¬ ∃ s : ℚ, 0 ≤ s ∧
        hit_E 0 0 1 0 (-1) 30 = 0 + s * 0 ∧
        hit_N 0 0 1 0 (-1) 30 = 0 + s * (-1) := by
  refine ⟨by norm_num, by norm_num [TCPA_crit], by norm_num [TCPA_crit], ?_⟩
  rintro ⟨s, hs, -, hN⟩
  rw [hit_N, vR_line] at hN
  norm_num at hN
  linarith

/-- **C9, amended.** When the unit direction toward the goal has
non-negative components (the goal lies in the own-ship's north-east
quadrant, as in the environment's spawn geometry, where the own-ship starts
at `(N_max/5, E_max/5)` and the goal is sampled near the far corner) and
the own-ship's projected closing speed `vR` is non-negative, the line-mode
rendezvous point lies on the ray from the own-ship position in the goal
direction, at parameter (distance, for a unit direction) `vR * t_hit`. -/
theorem line_hit_point_on_ray_of_nonneg
    (N0 E0 vxOS vyOS gx gy t_hit : ℚ)
    (hgx : 0 ≤ gx) (hgy : 0 ≤ gy)
    (hvR : 0 ≤ vR_line vxOS vyOS gx gy) (ht : 0 ≤ t_hit) :
    ∃ s : ℚ, 0 ≤ s ∧ s = vR_line vxOS vyOS gx gy * t_hit ∧
      hit_E E0 vxOS vyOS gx gy t_hit = E0 + s * gx ∧
      hit_N N0 vxOS vyOS gx gy t_hit = N0 + s * gy := by
  refine ⟨vR_line vxOS vyOS gx gy * t_hit, mul_nonneg hvR ht, rfl, ?_, ?_⟩
  · rw [hit_E, abs_of_nonneg (mul_nonneg hvR hgx)]
    ring
  · rw [hit_N, abs_of_nonneg (mul_nonneg hvR hgy)]
    ring

/-- Witness for `line_hit_point_on_ray_of_nonneg` with goal direction
`(3/5, 4/5)` and own-ship velocity `(0, 1)` at `t_hit = 30`. -/
theorem line_hit_point_on_ray_of_nonneg_inst :
    ∃ s : ℚ, 0 ≤ s ∧ s = vR_line 0 1 (3/5) (4/5) * 30 ∧
      hit_E 0 0 1 (3/5) (4/5) 30 = 0 + s * (3/5) ∧
      hit_N 0 0 1 (3/5) (4/5) 30 = 0 + s * (4/5) :=
  line_hit_point_on_ray_of_nonneg 0 0 0 1 (3/5) (4/5) 30 (by norm_num) (by norm_num)
    (by norm_num [vR_line]) (by norm_num)

/-- Witness for `colreg_angular_conditions_disjoint_off_boundary` at the
concrete geometry with `C_T = 0`. -/
theorem colreg_angular_conditions_disjoint_off_boundary_inst :
    ¬(specHeadOn ⟨0, 0, 0, 0, 0, 0⟩ ∧ specStarboard ⟨0, 0, 0, 0, 0, 0⟩) ∧
    ¬(specHeadOn ⟨0, 0, 0, 0, 0, 0⟩ ∧ specPortside ⟨0, 0, 0, 0, 0, 0⟩) ∧
    ¬(specHeadOn ⟨0, 0, 0, 0, 0, 0⟩ ∧ angOvertaking ⟨0, 0, 0, 0, 0, 0⟩) ∧
    ¬(specStarboard ⟨0, 0, 0, 0, 0, 0⟩ ∧ specPortside ⟨0, 0, 0, 0, 0, 0⟩) ∧
    ¬(specStarboard ⟨0, 0, 0, 0, 0, 0⟩ ∧ angOvertaking ⟨0, 0, 0, 0, 0, 0⟩) ∧
    ¬(specPortside ⟨0, 0, 0, 0, 0, 0⟩ ∧ angOvertaking ⟨0, 0, 0, 0, 0, 0⟩) :=
  colreg_angular_conditions_disjoint_off_boundary ⟨0, 0, 0, 0, 0, 0⟩
    (by norm_num) (by norm_num) (by norm_num) (by norm_num)
